import Mathlib

/-
  Shallow embedding of the toilet-monitoring firmware
  (main/amoniaSensor.{h,cpp}, soapSensor.cpp, tissueSensor.cpp,
  waterSensor.cpp).

  Floating-point arithmetic of the firmware is idealised:
  - purely rational computations (averaging, calibration loop,
    Likert scoring, resistance derivation) are modelled over ℚ;
  - the logarithmic curve fit (log10 / pow) is modelled over ℝ.
  `unsigned long` timestamps are modelled as ℕ with explicit
  wrap-around subtraction modulo 2^32 (`uSub`).
-/

/-- Supply voltage constant from amoniaSensor.h. -/
def Vcc : ℚ := 5

/-- Load resistance constant from amoniaSensor.h. -/
def RL : ℚ := 4700

/-- Likert regression intercept from amoniaSensor.h. -/
def REG_INTERCEPT : ℚ := -0.805

/-- Likert regression slope from amoniaSensor.h. -/
def REG_SLOPE : ℚ := 1.989

/-- Recalibration interval (2 hours in ms) from amoniaSensor.h. -/
def calibrationInterval : ℕ := 2 * 60 * 60 * 1000

/-- Averaging window (5 minutes in ms) from amoniaSensor.h. -/
def AVERAGING_INTERVAL : ℕ := 5 * 60 * 1000

/-- Curve-fit coefficient array from amoniaSensor.h:
    `const float NH3_Curve[2] = \x7b-2.3447, 0.0670\x7d`. -/
noncomputable def NH3_Curve (i : Fin 2) : ℝ :=
  if i = 0 then -2.3447 else 0.0670

/-- Wrap-around subtraction of 32-bit unsigned timestamps, the meaning of
    `now - last` on `unsigned long` values in the firmware. -/
def uSub (a b : ℕ) : ℕ :=
  (((a : ℤ) - (b : ℤ)) % (2 ^ 32)).toNat

/-- The affine regression score computed inside `konversiKeLikert`
    (amoniaSensor.cpp line 127): `score = REG_INTERCEPT + REG_SLOPE * ppm`. -/
def likertScore (ppm : ℚ) : ℚ := REG_INTERCEPT + REG_SLOPE * ppm

/-- `konversiKeLikert` (amoniaSensor.cpp lines 123-133): clamp negative PPM
    to zero, compute the affine score, and band it at 1.5 and 2.5. -/
def konversiKeLikert (ppm : ℚ) : ℤ :=
  let p := if ppm < 0 then 0 else ppm
  let score := REG_INTERCEPT + REG_SLOPE * p
  if score ≤ 1.5 then 1
  else if score ≤ 2.5 then 2
  else 3

/-- `getPPM` (amoniaSensor.cpp lines 72-75):
    `log_ppm = a * log10(rasio) + b; return pow(10, log_ppm)`.
    (`rasio` is the source's resistance-ratio parameter.) -/
noncomputable def getPPM (rasio a b : ℝ) : ℝ :=
  let log_ppm := a * Real.logb 10 rasio + b
  (10 : ℝ) ^ log_ppm

/-- Modelled from the spec: the concentration formula as §4.2/§8 words it,
    with "slope = 0.0670" multiplying log10(ratio) and
    "intercept = -2.3447" added. Stated for comparison with `getPPM`
    as the firmware actually calls it. -/
noncomputable def specPPMClaim (rasio : ℝ) : ℝ :=
  (10 : ℝ) ^ ((0.0670 : ℝ) * Real.logb 10 rasio + (-2.3447 : ℝ))

/-- Derived sensor resistance from a raw ADC reading
    (amoniaSensor.cpp lines 36-38 and 81-83):
    `Vout = (adc / 4095) * Vcc; Rs = ((Vcc - Vout) / Vout) * RL`. -/
def rsOfAdc (adc : ℕ) : ℚ :=
  let Vout := ((adc : ℚ) / 4095) * Vcc
  ((Vcc - Vout) / Vout) * RL

/-- Digital logic level read from a pin (`digitalRead` result). -/
inductive PinLevel
  | LOW
  | HIGH
deriving DecidableEq

/-- Per-unit soap classification (soapSensor.cpp lines 32-34):
    `(distance > 10) ? "Habis" : "Aman"`. -/
def soapStatus (distanceCm : ℤ) : String :=
  if distanceCm > 10 then "Habis" else "Aman"

/-- `getDistance` (soapSensor.cpp lines 16-25): converts an echo pulse
    duration (µs) to centimetres, truncated to `long`:
    `distanceCm = duration * 0.0343 / 2`. -/
def getDistance (duration : ℕ) : ℤ :=
  ⌊(duration : ℚ) * 0.0343 / 2⌋

/-- `getSoapData` (soapSensor.cpp lines 27-43), parameterised by the three
    measured distances; assembles the status text block. -/
def getSoapData (d1 d2 d3 : ℤ) : String :=
  "--- Ketersediaan Sabun ---\n" ++
  "Sabun 1 | Jarak: " ++ toString d1 ++ " cm | Status: " ++
    (if d1 > 10 then "Habis" else "Aman") ++ "\n" ++
  "Sabun 2 | Jarak: " ++ toString d2 ++ " cm | Status: " ++
    (if d2 > 10 then "Habis" else "Aman") ++ "\n" ++
  "Sabun 3 | Jarak: " ++ toString d3 ++ " cm | Status: " ++
    (if d3 > 10 then "Habis" else "Aman")

/-- Per-pin tissue classification (tissueSensor.cpp lines 12-22):
    LOW means the tissue is gone. -/
def tissueStatus (p : PinLevel) : String :=
  if p = PinLevel.LOW then "Tisu Habis!" else "Tisu Tersedia."

/-- `getTissueData` (tissueSensor.cpp lines 9-24), parameterised by the two
    pin levels. -/
def getTissueData (p1 p2 : PinLevel) : String :=
  "--- Ketersediaan Tisu ---\n" ++
  (if p1 = PinLevel.LOW then "Status 1: Tisu Habis!" else "Status 1: Tisu Tersedia.") ++
  (if p2 = PinLevel.LOW then "\nStatus 2: Tisu Habis!" else "\nStatus 2: Tisu Tersedia.")

/-- Water classification (waterSensor.cpp lines 10-14): LOW means standing
    water detected. -/
def waterStatus (p : PinLevel) : String :=
  if p = PinLevel.LOW then "Genangan air terdeteksi." else "Lantai kering."

/-- `getWaterData` (waterSensor.cpp lines 8-16), parameterised by the pin
    level. -/
def getWaterData (p : PinLevel) : String :=
  "--- Deteksi Genangan Air ---\n" ++
  (if p = PinLevel.LOW then "Status: Genangan air terdeteksi." else "Status: Lantai kering.")

/-- The mutable globals of amoniaSensor.cpp lines 6-13 gathered in one
    record: baseline `R0`, the calibration-in-progress flag, the last
    calibration timestamp, the averaging buffer (running sum and sample
    count), and the averaging-window start time. -/
structure AmoniaState where
  R0 : ℚ
  sedangKalibrasi : Bool
  lastCalibrationTime : ℕ
  amoniaPPMBuffer : ℝ
  bufferCount : ℤ
  lastAveragingTime : ℕ

/-- `updateAmoniaBuffer` (amoniaSensor.cpp lines 78-94): skip while
    calibrating; derive Rs from the ADC reading; skip if `R0 == 0`;
    otherwise accumulate one instantaneous PPM sample. -/
noncomputable def updateAmoniaBuffer (adc : ℕ) (s : AmoniaState) : AmoniaState :=
  if s.sedangKalibrasi then s
  else
    let Rs := rsOfAdc adc
    if s.R0 = 0 then s
    else
      let ppm_NH3 := getPPM (((Rs / s.R0 : ℚ) : ℝ)) (NH3_Curve 0) (NH3_Curve 1)
      { s with amoniaPPMBuffer := s.amoniaPPMBuffer + ppm_NH3,
               bufferCount := s.bufferCount + 1 }

/-- `getAveragedPPM` (amoniaSensor.cpp lines 97-119): if the averaging
    interval has elapsed, return the window mean (0 if empty) and reset the
    buffer and window start; otherwise return the partial mean (0 if empty)
    without touching state. -/
noncomputable def getAveragedPPM (now : ℕ) (s : AmoniaState) : ℝ × AmoniaState :=
  if AVERAGING_INTERVAL ≤ uSub now s.lastAveragingTime then
    let averagedPPM : ℝ :=
      if 0 < s.bufferCount then s.amoniaPPMBuffer / (s.bufferCount : ℝ) else 0
    (averagedPPM,
     { s with amoniaPPMBuffer := 0, bufferCount := 0, lastAveragingTime := now })
  else if 0 < s.bufferCount then (s.amoniaPPMBuffer / (s.bufferCount : ℝ), s)
  else (0, s)

/-- The sampling loop of `kalibrasiAmoniaSensor` (amoniaSensor.cpp lines
    29-56), with the derived resistance of sample `i` given by `rs i`.
    State carried exactly as in the source: current index `i`, remaining
    budget `fuel` (initially 30 = `maxPembacaan`), previous resistance
    `rsLama`, running sum `totalRs`, and `stabilCount`. Returns the
    computed baseline `R0` together with the number of samples taken. -/
def kalibrasiGo (rs : ℕ → ℚ) : ℕ → ℕ → ℚ → ℚ → ℕ → ℚ × ℕ
  | _i, 0, _rsLama, totalRs, _sc => (totalRs / 30, 30)
  | i, fuel + 1, rsLama, totalRs, sc =>
      let Rs := rs i
      let sc' := if 0 < i then (if |Rs - rsLama| / rsLama < 0.02 then sc + 1 else 0) else sc
      let totalRs' := totalRs + Rs
      if 5 ≤ sc' then (totalRs' / ((i : ℚ) + 1), i + 1)
      else kalibrasiGo rs (i + 1) fuel Rs totalRs' sc'

/-- `kalibrasiAmoniaSensor`'s loop started from the source's initial state
    (`i = 0`, budget 30, `rsLama = 0`, `totalRs = 0`, `stabilCount = 0`). -/
def kalibrasiLoop (rs : ℕ → ℚ) : ℚ × ℕ :=
  kalibrasiGo rs 0 30 0 0 0

/-- Declarative stability counter: value of `stabilCount` after processing
    sample `i` (increment when the fractional change of the derived
    resistance is below 0.02, reset to zero otherwise). -/
def stabCount (rs : ℕ → ℚ) : ℕ → ℕ
  | 0 => 0
  | i + 1 => if |rs (i + 1) - rs i| / rs i < 0.02 then stabCount rs i + 1 else 0

/-- First sample index in `[i, i + fuel)` at which the stability counter
    has reached 5, if any. -/
def stopAux (rs : ℕ → ℚ) : ℕ → ℕ → Option ℕ
  | _i, 0 => none
  | i, fuel + 1 => if 5 ≤ stabCount rs i then some i else stopAux rs (i + 1) fuel

/-- Earliest of the 30 budgeted samples at which the stability counter
    reaches 5 (the early-termination point), if any. -/
def stopAt (rs : ℕ → ℚ) : Option ℕ := stopAux rs 0 30

/-- Full effect of `kalibrasiAmoniaSensor` (amoniaSensor.cpp lines 20-61)
    on the global state: store the loop's baseline, clear the in-progress
    flag, and record the completion timestamp `tEnd` (the `millis()` value
    at completion). -/
def kalibrasiAmoniaSensor (rs : ℕ → ℚ) (tEnd : ℕ) (s : AmoniaState) : AmoniaState :=
  { s with R0 := (kalibrasiLoop rs).1,
           sedangKalibrasi := false,
           lastCalibrationTime := tEnd }

/-- `autoKalibrasiAmoniaSensor` (amoniaSensor.cpp lines 63-70): when not
    calibrating and the elapsed time since the last calibration is at least
    `calibrationInterval`, set the flag and re-run calibration. The Bool
    records whether calibration was re-entered. -/
def autoKalibrasiAmoniaSensor (rs : ℕ → ℚ) (now tEnd : ℕ) (s : AmoniaState) :
    Bool × AmoniaState :=
  if s.sedangKalibrasi = false ∧ calibrationInterval ≤ uSub now s.lastCalibrationTime then
    (true, kalibrasiAmoniaSensor rs tEnd { s with sedangKalibrasi := true })
  else (false, s)

/-- Monotonicity of the two-cut-point banding used by `konversiKeLikert`. -/
lemma likert_band_mono {s1 s2 : ℚ} (h : s1 ≤ s2) :
    (if s1 ≤ 1.5 then (1 : ℤ) else if s1 ≤ 2.5 then 2 else 3) ≤
      (if s2 ≤ 1.5 then (1 : ℤ) else if s2 ≤ 2.5 then 2 else 3) := by
  split_ifs <;> first | (exfalso; linarith) | norm_num

/-- C1 counterexample: at PPM = 1 the score is 1.184, which is below the
    first cut-point 1.5, so the code returns category 1, not the claimed
    category 2. -/
theorem konversiKeLikert_ppm_one_cex :
    likertScore 1 = 1.184 ∧ konversiKeLikert 1 = 1 ∧ konversiKeLikert 1 ≠ 2 := by
  refine ⟨?_, ?_, ?_⟩ <;>
    norm_num [likertScore, konversiKeLikert, REG_INTERCEPT, REG_SLOPE]

/-- C1 (amended): `konversiKeLikert` maps a nonnegative averaged PPM to a
    category via the affine score `REG_INTERCEPT + REG_SLOPE * ppm` and the
    cut-points 1.5 and 2.5; PPM = 0 gives score -0.805 and category 1,
    PPM = 1 gives score 1.184 and category 1, PPM = 2 gives score 3.173 and
    category 3. -/
theorem konversiKeLikert_spec :
    (∀ ppm : ℚ, 0 ≤ ppm →
      konversiKeLikert ppm =
        if likertScore ppm ≤ 1.5 then 1
        else if likertScore ppm ≤ 2.5 then 2 else 3) ∧
    likertScore 0 = -0.805 ∧ konversiKeLikert 0 = 1 ∧
    likertScore 1 = 1.184 ∧ konversiKeLikert 1 = 1 ∧
    likertScore 2 = 3.173 ∧ konversiKeLikert 2 = 3 := by
  refine ⟨fun ppm h => ?_, ?_, ?_, ?_, ?_, ?_, ?_⟩
  · simp only [konversiKeLikert, likertScore]
    rw [if_neg (not_lt.mpr h)]
  all_goals
    norm_num [likertScore, konversiKeLikert, REG_INTERCEPT, REG_SLOPE]

/-- Witness for `konversiKeLikert_spec` at PPM = 2. -/
theorem konversiKeLikert_spec_witness :
    (0 : ℚ) ≤ 2 ∧
      konversiKeLikert 2 =
        if likertScore 2 ≤ 1.5 then 1
        else if likertScore 2 ≤ 2.5 then 2 else 3 :=
  ⟨by norm_num, konversiKeLikert_spec.1 2 (by norm_num)⟩

/-- C9: negative PPM inputs are clamped to zero before scoring, so every
    negative input yields the same category as input 0. -/
theorem konversiKeLikert_clamp (ppm : ℚ) (h : ppm < 0) :
    konversiKeLikert ppm = konversiKeLikert 0 := by
  simp only [konversiKeLikert]
  rw [if_pos h, if_neg (lt_irrefl 0)]

/-- Witness for `konversiKeLikert_clamp` at PPM = -1. -/
theorem konversiKeLikert_clamp_witness :
    (-1 : ℚ) < 0 ∧ konversiKeLikert (-1) = konversiKeLikert 0 :=
  ⟨by norm_num, konversiKeLikert_clamp (-1) (by norm_num)⟩

/-- C10: `konversiKeLikert` is monotone non-decreasing, and every return
    value is 1, 2 or 3. -/
theorem konversiKeLikert_monotone :
    (∀ p1 p2 : ℚ, p1 ≤ p2 → konversiKeLikert p1 ≤ konversiKeLikert p2) ∧
    (∀ p : ℚ, konversiKeLikert p = 1 ∨ konversiKeLikert p = 2 ∨ konversiKeLikert p = 3) := by
  constructor
  · intro p1 p2 h
    simp only [konversiKeLikert]
    apply likert_band_mono
    have hc : (if p1 < 0 then (0 : ℚ) else p1) ≤ (if p2 < 0 then 0 else p2) := by
      split_ifs <;> linarith
    have hm := mul_le_mul_of_nonneg_left hc (by norm_num [REG_SLOPE] : (0 : ℚ) ≤ REG_SLOPE)
    linarith
  · intro p
    simp only [konversiKeLikert]
    split_ifs <;> simp

/-- Witness for `konversiKeLikert_monotone` at the pair (0, 1). -/
theorem konversiKeLikert_monotone_witness :
    (0 : ℚ) ≤ 1 ∧ konversiKeLikert 0 ≤ konversiKeLikert 1 :=
  ⟨by norm_num, konversiKeLikert_monotone.1 0 1 (by norm_num)⟩

/-- C8: each discrete sensor read classifies by a single threshold or pin
    level — soap is "Habis" exactly when the distance exceeds 10 cm and
    "Aman" otherwise, tissue pins read "Tisu Habis!" exactly on LOW,
    water reads "Genangan air terdeteksi." exactly on LOW — and each data
    block composes the per-unit classifications independently. -/
theorem discreteSensors_spec :
    (∀ d : ℤ, (soapStatus d = "Habis" ↔ 10 < d) ∧ (soapStatus d = "Aman" ↔ d ≤ 10)) ∧
    (∀ p : PinLevel,
      (tissueStatus p = "Tisu Habis!" ↔ p = PinLevel.LOW) ∧
      (tissueStatus p = "Tisu Tersedia." ↔ p = PinLevel.HIGH)) ∧
    (∀ p : PinLevel,
      (waterStatus p = "Genangan air terdeteksi." ↔ p = PinLevel.LOW) ∧
      (waterStatus p = "Lantai kering." ↔ p = PinLevel.HIGH)) ∧
    (∀ d1 d2 d3 : ℤ, getSoapData d1 d2 d3 =
      "--- Ketersediaan Sabun ---\n" ++
      "Sabun 1 | Jarak: " ++ toString d1 ++ " cm | Status: " ++ soapStatus d1 ++ "\n" ++
      "Sabun 2 | Jarak: " ++ toString d2 ++ " cm | Status: " ++ soapStatus d2 ++ "\n" ++
      "Sabun 3 | Jarak: " ++ toString d3 ++ " cm | Status: " ++ soapStatus d3) ∧
    (∀ p1 p2 : PinLevel, getTissueData p1 p2 =
      "--- Ketersediaan Tisu ---\n" ++ "Status 1: " ++ tissueStatus p1 ++
      "\nStatus 2: " ++ tissueStatus p2) ∧
    (∀ p : PinLevel, getWaterData p =
      "--- Deteksi Genangan Air ---\n" ++ "Status: " ++ waterStatus p) := by
  refine ⟨fun d => ?_, fun p => ?_, fun p => ?_, fun d1 d2 d3 => ?_,
    fun p1 p2 => ?_, fun p => ?_⟩
  · rcases lt_or_le 10 d with h | h
    · rw [soapStatus, if_pos h]
      constructor <;> simp_all
    · rw [soapStatus, if_neg (not_lt.mpr h)]
      constructor <;> simp_all
  · cases p <;> simp [tissueStatus]
  · cases p <;> simp [waterStatus]
  · rfl
  · cases p1 <;> cases p2 <;> rfl
  · cases p <;> rfl

/-- Buffer state after accumulating the samples 10, 20 and 30 at window
    start time 0 (running sum 60, count 3). -/
noncomputable def sampleBufferState : AmoniaState :=
  ⟨1, false, 0, 10 + 20 + 30, 3, 0⟩

/-- C3: `getAveragedPPM` peeks or flushes. If the averaging interval has
    elapsed it returns sum/count (zero if no samples) and resets the sum,
    count and window start; otherwise it returns the partial mean (zero if
    empty) and changes nothing. With buffered samples [10,20,30], a
    pre-boundary read returns 20 and keeps the buffer; the first
    post-boundary read returns 20 and empties it. -/
theorem getAveragedPPM_spec (now : ℕ) (s : AmoniaState) :
    (AVERAGING_INTERVAL ≤ uSub now s.lastAveragingTime →
      getAveragedPPM now s =
        ((if 0 < s.bufferCount then s.amoniaPPMBuffer / (s.bufferCount : ℝ) else 0),
         { s with amoniaPPMBuffer := 0, bufferCount := 0, lastAveragingTime := now })) ∧
    (uSub now s.lastAveragingTime < AVERAGING_INTERVAL →
      getAveragedPPM now s =
        ((if 0 < s.bufferCount then s.amoniaPPMBuffer / (s.bufferCount : ℝ) else 0), s)) ∧
    getAveragedPPM 1000 sampleBufferState = (20, sampleBufferState) ∧
    getAveragedPPM 300000 sampleBufferState = (20, ⟨1, false, 0, 0, 0, 300000⟩) := by
  refine ⟨fun h => ?_, fun h => ?_, ?_, ?_⟩
  · rw [getAveragedPPM, if_pos h]
  · rw [getAveragedPPM, if_neg (not_le.mpr h)]
    split_ifs <;> rfl
  · have hlt : ¬ (AVERAGING_INTERVAL ≤ uSub 1000 sampleBufferState.lastAveragingTime) := by
      decide
    rw [getAveragedPPM, if_neg hlt]
    have hc : (0 : ℤ) < sampleBufferState.bufferCount := by decide
    rw [if_pos hc]
    have : (sampleBufferState.amoniaPPMBuffer / (sampleBufferState.bufferCount : ℝ)) = 20 := by
      show ((10 + 20 + 30 : ℝ) / ((3 : ℤ) : ℝ)) = 20
      norm_num
    rw [this]
  · have hge : AVERAGING_INTERVAL ≤ uSub 300000 sampleBufferState.lastAveragingTime := by
      decide
    rw [getAveragedPPM, if_pos hge]
    have hc : (0 : ℤ) < sampleBufferState.bufferCount := by decide
    simp only [if_pos hc]
    have : (sampleBufferState.amoniaPPMBuffer / (sampleBufferState.bufferCount : ℝ)) = 20 := by
      show ((10 + 20 + 30 : ℝ) / ((3 : ℤ) : ℝ)) = 20
      norm_num
    rw [this]
    rfl

/-- Witness for `getAveragedPPM_spec`: the post-boundary flush at
    `now = 300000` on the [10,20,30] buffer. -/
theorem getAveragedPPM_spec_witness :
    AVERAGING_INTERVAL ≤ uSub 300000 sampleBufferState.lastAveragingTime ∧
      getAveragedPPM 300000 sampleBufferState =
        ((if 0 < sampleBufferState.bufferCount then
            sampleBufferState.amoniaPPMBuffer / (sampleBufferState.bufferCount : ℝ)
          else 0),
         { sampleBufferState with
             amoniaPPMBuffer := 0, bufferCount := 0, lastAveragingTime := 300000 }) :=
  ⟨by decide, (getAveragedPPM_spec 300000 sampleBufferState).1 (by decide)⟩

/-- C5: `updateAmoniaBuffer` leaves the whole state (in particular the
    buffer sum and count) unchanged while calibration is in progress, and
    likewise when the baseline `R0` is the uncalibrated sentinel 0; only
    when neither holds does it add exactly one PPM sample to the sum and
    increment the count by one, leaving every other field unchanged. -/
theorem updateAmoniaBuffer_spec (adc : ℕ) (s : AmoniaState) :
    (s.sedangKalibrasi = true → updateAmoniaBuffer adc s = s) ∧
    (s.R0 = 0 → updateAmoniaBuffer adc s = s) ∧
    (s.sedangKalibrasi = false → s.R0 ≠ 0 →
      updateAmoniaBuffer adc s =
        { s with
            amoniaPPMBuffer := s.amoniaPPMBuffer +
              getPPM (((rsOfAdc adc / s.R0 : ℚ) : ℝ)) (NH3_Curve 0) (NH3_Curve 1),
            bufferCount := s.bufferCount + 1 }) := by
  refine ⟨fun h => ?_, fun h0 => ?_, fun hf h0 => ?_⟩
  · simp only [updateAmoniaBuffer]
    rw [if_pos h]
  · simp only [updateAmoniaBuffer]
    by_cases hk : s.sedangKalibrasi = true
    · rw [if_pos hk]
    · rw [if_neg hk, if_pos h0]
  · have hk : ¬ (s.sedangKalibrasi = true) := by simp [hf]
    simp only [updateAmoniaBuffer]
    rw [if_neg hk, if_neg h0]

/-- Witness for `updateAmoniaBuffer_spec`: the calibration no-op, the
    R0 = 0 no-op, and the accumulate case, each at a concrete state. -/
theorem updateAmoniaBuffer_spec_witness :
    (updateAmoniaBuffer 2048 ⟨1, true, 0, 0, 0, 0⟩ = ⟨1, true, 0, 0, 0, 0⟩) ∧
    (updateAmoniaBuffer 2048 ⟨0, false, 0, 0, 0, 0⟩ = ⟨0, false, 0, 0, 0, 0⟩) ∧
    (updateAmoniaBuffer 2048 ⟨1, false, 0, 0, 0, 0⟩ =
      ⟨1, false, 0,
       0 + getPPM (((rsOfAdc 2048 / 1 : ℚ) : ℝ)) (NH3_Curve 0) (NH3_Curve 1),
       0 + 1, 0⟩) :=
  ⟨(updateAmoniaBuffer_spec 2048 ⟨1, true, 0, 0, 0, 0⟩).1 rfl,
   (updateAmoniaBuffer_spec 2048 ⟨0, false, 0, 0, 0, 0⟩).2.1 rfl,
   (updateAmoniaBuffer_spec 2048 ⟨1, false, 0, 0, 0, 0⟩).2.2 rfl (by norm_num)⟩

/-- First entry of the curve-fit array. -/
lemma NH3_Curve_zero : NH3_Curve 0 = -2.3447 := by
  simp [NH3_Curve]

/-- Second entry of the curve-fit array. -/
lemma NH3_Curve_one : NH3_Curve 1 = 0.0670 := by
  norm_num [NH3_Curve]

/-- C2 counterexample: at ratio 1.0 the spec's formula (slope 0.0670 on
    the logarithm, intercept -2.3447 added) gives 10^(-2.3447), but the
    firmware call `getPPM(ratio, NH3_Curve[0], NH3_Curve[1])` multiplies
    the logarithm by -2.3447 and adds 0.0670, giving 10^(0.0670) — a
    different value. -/
theorem getPPM_claim_cex :
    specPPMClaim 1 = (10 : ℝ) ^ (-2.3447 : ℝ) ∧
    getPPM 1 (NH3_Curve 0) (NH3_Curve 1) = (10 : ℝ) ^ (0.0670 : ℝ) ∧
    getPPM 1 (NH3_Curve 0) (NH3_Curve 1) ≠ specPPMClaim 1 := by
  have h1 : specPPMClaim 1 = (10 : ℝ) ^ (-2.3447 : ℝ) := by
    rw [specPPMClaim, Real.logb_one]
    norm_num
  have h2 : getPPM 1 (NH3_Curve 0) (NH3_Curve 1) = (10 : ℝ) ^ (0.0670 : ℝ) := by
    rw [getPPM, Real.logb_one, NH3_Curve_one]
    norm_num
  refine ⟨h1, h2, ?_⟩
  rw [h1, h2]
  have hlt : (10 : ℝ) ^ (-2.3447 : ℝ) < (10 : ℝ) ^ (0.0670 : ℝ) :=
    (Real.rpow_lt_rpow_left_iff (by norm_num)).mpr (by norm_num)
  exact ne_of_gt hlt

/-- C2 (amended): for every ratio, `getPPM` as the firmware calls it equals
    10^(a·log10(ratio) + b) with a = NH3_Curve[0] = -2.3447 multiplying the
    logarithm and b = NH3_Curve[1] = 0.0670 added (the spec's "slope" and
    "intercept" name the two constants in the opposite roles); ratio 1.0
    yields 10^(0.0670) ≈ 1.167, in particular a value above 1. -/
theorem getPPM_spec :
    (∀ r : ℝ, getPPM r (NH3_Curve 0) (NH3_Curve 1) =
      (10 : ℝ) ^ ((-2.3447 : ℝ) * Real.logb 10 r + 0.0670)) ∧
    getPPM 1 (NH3_Curve 0) (NH3_Curve 1) = (10 : ℝ) ^ (0.0670 : ℝ) ∧
    1 < getPPM 1 (NH3_Curve 0) (NH3_Curve 1) := by
  have hgen : ∀ r : ℝ, getPPM r (NH3_Curve 0) (NH3_Curve 1) =
      (10 : ℝ) ^ ((-2.3447 : ℝ) * Real.logb 10 r + 0.0670) := by
    intro r
    rw [getPPM, NH3_Curve_zero, NH3_Curve_one]
  have h2 : getPPM 1 (NH3_Curve 0) (NH3_Curve 1) = (10 : ℝ) ^ (0.0670 : ℝ) := by
    rw [hgen, Real.logb_one]
    norm_num
  refine ⟨hgen, h2, ?_⟩
  rw [h2]
  exact (Real.one_lt_rpow_iff_of_pos (by norm_num)).mpr (Or.inl ⟨by norm_num, by norm_num⟩)

/-- Declarative result of the calibration loop, as a function of the
    early-termination point: on `some k` the loop stops after `k + 1`
    samples with the mean of those samples; on `none` it uses all 30. -/
def kalibrasiSpecResult (rs : ℕ → ℚ) (o : Option ℕ) : ℚ × ℕ :=
  match o with
  | some k => ((∑ j ∈ Finset.range (k + 1), rs j) / ((k : ℚ) + 1), k + 1)
  | none => ((∑ j ∈ Finset.range 30, rs j) / 30, 30)

/-- An early-termination index returned by `stopAux` lies within the
    scanned window. -/
lemma stopAux_some_lt (rs : ℕ → ℚ) :
    ∀ fuel i k, stopAux rs i fuel = some k → k < i + fuel := by
  intro fuel
  induction fuel with
  | zero => intro i k h; simp [stopAux] at h
  | succ fuel ih =>
    intro i k h
    simp only [stopAux] at h
    split_ifs at h with h5
    · injection h with h
      omega
    · have := ih (i + 1) k h
      omega

/-- Loop invariant: started at sample `i` with the running state the source
    maintains (previous resistance, partial sum, declarative counter
    value), `kalibrasiGo` computes the declarative result determined by the
    first stabilisation point at or after `i`. -/
lemma kalibrasiGo_eq (rs : ℕ → ℚ) :
    ∀ fuel i rsL sc, i + fuel = 30 →
      (i = 0 → sc = 0) →
      (∀ i0, i = i0 + 1 → rsL = rs i0 ∧ sc = stabCount rs i0) →
      kalibrasiGo rs i fuel rsL (∑ j ∈ Finset.range i, rs j) sc =
        kalibrasiSpecResult rs (stopAux rs i fuel) := by
  intro fuel
  induction fuel with
  | zero =>
    intro i rsL sc h30 _ _
    have hi : i = 30 := by omega
    subst hi
    simp [kalibrasiGo, stopAux, kalibrasiSpecResult]
  | succ fuel ih =>
    intro i rsL sc h30 h0 hs
    have hsc : (if 0 < i then (if |rs i - rsL| / rsL < 0.02 then sc + 1 else 0) else sc)
        = stabCount rs i := by
      rcases i with _ | i0
      · simp [h0 rfl, stabCount]
      · obtain ⟨hL, hC⟩ := hs i0 rfl
        subst hL
        subst hC
        rw [if_pos (Nat.succ_pos i0), stabCount]
    simp only [kalibrasiGo]
    rw [hsc, ← Finset.sum_range_succ]
    by_cases h5 : 5 ≤ stabCount rs i
    · rw [if_pos h5]
      simp only [stopAux, if_pos h5, kalibrasiSpecResult]
    · rw [if_neg h5]
      simp only [stopAux, if_neg h5]
      exact ih (i + 1) (rs i) (stabCount rs i) (by omega)
        (fun h => absurd h (Nat.succ_ne_zero i))
        (fun i0 h => by
          obtain rfl : i = i0 := Nat.succ.inj h
          exact ⟨rfl, rfl⟩)

/-- C4: the calibration loop takes at most 30 samples; the stability
    counter follows `stabCount` (increment when the fractional resistance
    change is below 0.02, reset otherwise); it stops at the first sample
    where the counter reaches 5, returning the mean over the samples taken
    so far, and with no such sample it uses all 30 and returns their
    mean. -/
theorem kalibrasiLoop_spec (rs : ℕ → ℚ) :
    (kalibrasiLoop rs).2 ≤ 30 ∧
    (∀ k, stopAt rs = some k →
      kalibrasiLoop rs = ((∑ j ∈ Finset.range (k + 1), rs j) / ((k : ℚ) + 1), k + 1)) ∧
    (stopAt rs = none →
      kalibrasiLoop rs = ((∑ j ∈ Finset.range 30, rs j) / 30, 30)) := by
  have hmain : kalibrasiLoop rs = kalibrasiSpecResult rs (stopAt rs) := by
    have h := kalibrasiGo_eq rs 30 0 0 0 (by omega)
      (fun _ => rfl) (fun i0 h => absurd h (by omega))
    simpa [kalibrasiLoop, stopAt] using h
  refine ⟨?_, fun k hk => ?_, fun hn => ?_⟩
  · rw [hmain]
    cases ho : stopAt rs with
    | none => simp [kalibrasiSpecResult, ho]
    | some k =>
      have := stopAux_some_lt rs 30 0 k ho
      simp only [kalibrasiSpecResult, ho]
      omega
  · rw [hmain, hk, kalibrasiSpecResult]
  · rw [hmain, hn, kalibrasiSpecResult]

/-- For a series whose declarative counter is the identity (each change
    after the first sample is below threshold), the scan finds index 5. -/
lemma stopAux_const_five (rs : ℕ → ℚ) (hstab : ∀ j, stabCount rs j = j) :
    ∀ fuel i, i ≤ 5 → 5 < i + fuel → stopAux rs i fuel = some 5 := by
  intro fuel
  induction fuel with
  | zero => intro i h1 h2; omega
  | succ fuel ih =>
    intro i h1 h2
    simp only [stopAux]
    rw [hstab i]
    by_cases h5 : 5 ≤ i
    · have hi : i = 5 := by omega
      subst hi
      rw [if_pos (le_refl 5)]
    · rw [if_neg h5]
      exact ih (i + 1) (by omega) (by omega)

/-- On a constant series the declarative counter increments at every
    sample after the first. -/
lemma stabCount_const (V : ℚ) : ∀ i, stabCount (fun _ => V) i = i := by
  intro i
  induction i with
  | zero => rfl
  | succ i ih =>
    rw [stabCount, if_pos, ih]
    simp only [sub_self, abs_zero, zero_div]
    norm_num

/-- C6 (amended): when every sample of the series equals `V`, the
    stability counter reaches 5 at sample index 5, the loop terminates
    early after 6 samples, and the baseline is exactly `V`. In general the
    early-terminated baseline is the mean of all samples taken, including
    those recorded before stabilisation. -/
theorem kalibrasiLoop_const (V : ℚ) :
    stopAt (fun _ => V) = some 5 ∧ kalibrasiLoop (fun _ => V) = (V, 6) := by
  have hstop : stopAt (fun _ => V) = some 5 :=
    stopAux_const_five _ (stabCount_const V) 30 0 (by omega) (by omega)
  refine ⟨hstop, ?_⟩
  have h := kalibrasiGo_eq (fun _ => V) 30 0 0 0 (by omega)
    (fun _ => rfl) (fun i0 h => absurd h (by omega))
  have hloop : kalibrasiLoop (fun _ => V) = kalibrasiSpecResult (fun _ => V) (some 5) := by
    rw [kalibrasiLoop]
    rw [show stopAux (fun _ => V) 0 30 = some 5 from hstop] at h
    simpa using h
  rw [hloop, kalibrasiSpecResult]
  simp [Finset.sum_const, Finset.card_range]
  ring

/-- Synthetic resistance series for the C6 counterexample: a single
    outlier sample 1000 followed by the stable value 1. -/
def rs6 : ℕ → ℚ := fun i => if i = 0 then 1000 else 1

/-- On `rs6` the declarative counter is `j - 1`: the jump from 1000 to 1
    resets it, every later change is zero. -/
lemma stabCount_rs6 : ∀ j, stabCount rs6 j = j - 1 := by
  intro j
  induction j with
  | zero => rfl
  | succ j ih =>
    rcases j with _ | j0
    · rw [stabCount, if_neg]
      norm_num [rs6]
    · rw [stabCount, if_pos, ih]
      · simp [rs6]
      · simp only [rs6]
        norm_num

/-- For a series whose declarative counter is `j - 1`, the scan finds
    index 6. -/
lemma stopAux_rs6_six (rs : ℕ → ℚ) (hstab : ∀ j, stabCount rs j = j - 1) :
    ∀ fuel i, i ≤ 6 → 6 < i + fuel → stopAux rs i fuel = some 6 := by
  intro fuel
  induction fuel with
  | zero => intro i h1 h2; omega
  | succ fuel ih =>
    intro i h1 h2
    simp only [stopAux]
    rw [hstab i]
    by_cases h5 : 5 ≤ i - 1
    · have hi : i = 6 := by omega
      subst hi
      rw [if_pos (by omega)]
    · rw [if_neg h5]
      exact ih (i + 1) (by omega) (by omega)

/-- C6 counterexample: the series `rs6` stabilises at V = 1 (five
    consecutive below-threshold changes fire early termination at sample
    index 6), yet the resulting baseline is the mean 1006/7 of all seven
    samples taken — more than 100 away from V = 1, because the
    pre-stabilisation outlier 1000 is included in the mean. -/
theorem kalibrasi_prestabilization_cex :
    rs6 0 = 1000 ∧ rs6 1 = 1 ∧ rs6 6 = 1 ∧
    stopAt rs6 = some 6 ∧
    (kalibrasiLoop rs6).2 = 7 ∧
    (kalibrasiLoop rs6).1 = 1006 / 7 ∧
    100 < |(kalibrasiLoop rs6).1 - 1| := by
  have hstop : stopAt rs6 = some 6 :=
    stopAux_rs6_six rs6 stabCount_rs6 30 0 (by omega) (by omega)
  have h := kalibrasiGo_eq rs6 30 0 0 0 (by omega)
    (fun _ => rfl) (fun i0 h => absurd h (by omega))
  have hloop : kalibrasiLoop rs6 = kalibrasiSpecResult rs6 (some 6) := by
    rw [kalibrasiLoop]
    rw [show stopAux rs6 0 30 = some 6 from hstop] at h
    simpa using h
  have hsum : (∑ j ∈ Finset.range 7, rs6 j) = 1006 := by
    simp [Finset.sum_range_succ, rs6]
    norm_num
  have h1 : (kalibrasiLoop rs6).1 = 1006 / 7 := by
    rw [hloop, kalibrasiSpecResult]
    rw [hsum]
    norm_num
  refine ⟨rfl, rfl, rfl, hstop, ?_, h1, ?_⟩
  · rw [hloop, kalibrasiSpecResult]
  · rw [h1]
    rw [abs_of_nonneg (by norm_num)]
    norm_num

/-- Witness for `kalibrasiLoop_spec`: the constant series 100 stops at
    index 5 and the loop returns the mean of the first six samples. -/
theorem kalibrasiLoop_spec_witness :
    stopAt (fun _ => (100 : ℚ)) = some 5 ∧
      kalibrasiLoop (fun _ => (100 : ℚ)) =
        ((∑ _j ∈ Finset.range 6, (100 : ℚ)) / ((5 : ℕ) + 1 : ℚ), 6) := by
  have hstop : stopAt (fun _ => (100 : ℚ)) = some 5 :=
    stopAux_const_five _ (stabCount_const 100) 30 0 (by omega) (by omega)
  exact ⟨hstop, (kalibrasiLoop_spec _).2.1 5 hstop⟩

/-- C7 counterexample: with the elapsed time since the last calibration
    exactly equal to `calibrationInterval`, the code re-enters calibration
    even though the elapsed time does not strictly exceed the interval. -/
theorem autoKalibrasi_boundary_cex :
    (autoKalibrasiAmoniaSensor (fun _ => 1) calibrationInterval 0
        ⟨1, false, 0, 0, 0, 0⟩).1 = true ∧
    ¬ (calibrationInterval <
        uSub calibrationInterval (⟨1, false, 0, 0, 0, 0⟩ : AmoniaState).lastCalibrationTime) := by
  constructor
  · rw [autoKalibrasiAmoniaSensor, if_pos ⟨rfl, by decide⟩]
  · decide

/-- C7 (amended): the calibration routine has no failure path — it always
    stores a baseline, clears the in-progress flag and records the
    completion timestamp — and `autoKalibrasiAmoniaSensor` re-enters
    calibration exactly when calibration is not in progress and the
    elapsed time since the last calibration reaches or exceeds (≥) the
    fixed interval; when it re-enters it runs the full routine, otherwise
    it leaves the state untouched. -/
theorem autoKalibrasi_spec (rs : ℕ → ℚ) (now tEnd : ℕ) (s : AmoniaState) :
    ((kalibrasiAmoniaSensor rs tEnd s).R0 = (kalibrasiLoop rs).1 ∧
     (kalibrasiAmoniaSensor rs tEnd s).sedangKalibrasi = false ∧
     (kalibrasiAmoniaSensor rs tEnd s).lastCalibrationTime = tEnd) ∧
    ((autoKalibrasiAmoniaSensor rs now tEnd s).1 = true ↔
      (s.sedangKalibrasi = false ∧ calibrationInterval ≤ uSub now s.lastCalibrationTime)) ∧
    ((autoKalibrasiAmoniaSensor rs now tEnd s).1 = true →
      (autoKalibrasiAmoniaSensor rs now tEnd s).2 =
        kalibrasiAmoniaSensor rs tEnd { s with sedangKalibrasi := true }) ∧
    ((autoKalibrasiAmoniaSensor rs now tEnd s).1 = false →
      (autoKalibrasiAmoniaSensor rs now tEnd s).2 = s) := by
  refine ⟨⟨rfl, rfl, rfl⟩, ?_, ?_, ?_⟩
  · by_cases h : s.sedangKalibrasi = false ∧ calibrationInterval ≤ uSub now s.lastCalibrationTime
    · rw [autoKalibrasiAmoniaSensor, if_pos h]
      simpa using h
    · rw [autoKalibrasiAmoniaSensor, if_neg h]
      simpa using h
  · intro ht
    by_cases h : s.sedangKalibrasi = false ∧ calibrationInterval ≤ uSub now s.lastCalibrationTime
    · rw [autoKalibrasiAmoniaSensor, if_pos h]
    · rw [autoKalibrasiAmoniaSensor, if_neg h] at ht
      exact absurd ht (by simp)
  · intro ht
    by_cases h : s.sedangKalibrasi = false ∧ calibrationInterval ≤ uSub now s.lastCalibrationTime
    · rw [autoKalibrasiAmoniaSensor, if_pos h] at ht
      exact absurd ht (by simp)
    · rw [autoKalibrasiAmoniaSensor, if_neg h]

/-- Witness for `autoKalibrasi_spec`: at elapsed time equal to the
    interval, auto-recalibration fires and runs the routine. -/
theorem autoKalibrasi_spec_witness :
    (autoKalibrasiAmoniaSensor (fun _ => 1) calibrationInterval 7260000
        ⟨1, false, 0, 0, 0, 0⟩).1 = true ∧
    (autoKalibrasiAmoniaSensor (fun _ => 1) calibrationInterval 7260000
        ⟨1, false, 0, 0, 0, 0⟩).2 =
      kalibrasiAmoniaSensor (fun _ => 1) 7260000
        { (⟨1, false, 0, 0, 0, 0⟩ : AmoniaState) with sedangKalibrasi := true } := by
  have h1 : (autoKalibrasiAmoniaSensor (fun _ => 1) calibrationInterval 7260000
      ⟨1, false, 0, 0, 0, 0⟩).1 = true := by
    rw [autoKalibrasiAmoniaSensor, if_pos ⟨rfl, by decide⟩]
  exact ⟨h1,
    (autoKalibrasi_spec (fun _ => 1) calibrationInterval 7260000
      ⟨1, false, 0, 0, 0, 0⟩).2.2.1 h1⟩
